import Mathlib

/-!
Verification development for the Valthrun-CHS remote-memory-access core.

The definitions below are a shallow embedding of the Rust sources:

* `KInterfaceError` is translated from `src/kernel/interface/src/error.rs`
  (fixed-size `[u64; IO_MAX_DEREF_COUNT]` arrays are modelled as the
  meaningful prefix list together with the stored count field).
* The controller-side code (`src/controller/src/main.rs`,
  `src/controller/src/enhancements/player.rs`,
  `src/controller/src/settings/mod.rs`) and the radar generator
  (`src/radar/client/src/generator.rs`) are embedded directly.
* The bodies of the kernel interface channel (`open`/`read`), the entity
  system (`get_by_handle`) and the memoizing cache (`EntryCache::lookup`)
  are not part of the provided sources; they are modelled from the
  specification, as marked in the individual doc comments.

Machine integers (`u32`, `u64`, `usize`, `i32`) are modelled as `Nat`/`Int`;
the modelled quantities (version numbers, offsets, counters, health values)
never overflow in the modelled scenarios. `f32` values are modelled as `ℚ`
(every finite `f32` is a dyadic rational). Fallible Rust functions returning
`anyhow::Result` are modelled as `Except String`.
-/

namespace Valthrun

/-- `KInterfaceError`, translated constructor-by-constructor from
`src/kernel/interface/src/error.rs`. Payloads that carry no information
relevant to any claim (`NulError`, `windows::core::Error`,
`libloading::Error`) are reduced to their error codes or dropped.
`resolved_offsets`/`offsets` are `[u64; IO_MAX_DEREF_COUNT]` arrays in Rust;
here they are the meaningful prefix lists, with the counts kept as separate
fields exactly as in the source. -/
inductive KInterfaceError where
  | initializeInvalidStatus (code : Nat)
  | driverTooOld (driver_version : Nat) (driver_version_string : String)
      (requested_version : Nat) (requested_version_string : String)
  | driverTooNew (driver_version : Nat) (driver_version_string : String)
      (requested_version : Nat) (requested_version_string : String)
  | deviceInvalidPath
  | deviceUnavailable (code : Nat)
  | driverLoadingError
  | requestFailed
  | tooManyOffsets (provided : Nat) (limit : Nat)
  | invalidAddress (target_address : Nat) (resolved_offsets : List Nat)
      (resolved_offset_count : Nat) (offsets : List Nat) (offset_count : Nat)
  | processDoesNotExists
  | processNotUbiquitous
  | accessModeUnavailable
  | unknown
  deriving Repr, DecidableEq

/-- Remote memory for the purposes of the offset-chain walk: a partial map
from an address to the pointer-sized value stored there (`none` means the
address is not readable). -/
def RemoteMemory : Type := Nat → Option Nat

/-- Remote memory at byte granularity, used for the final read of a chain. -/
def RemoteBytes : Type := Nat → Option Nat

/-- Diagnostic data of a failed chain walk: the address whose dereference
failed and how many offsets had been successfully resolved at that point. -/
structure ChainFailure where
  target_address : Nat
  resolved_count : Nat
  deriving Repr, DecidableEq

/-- Modelled from the spec (§4.1), the offset-chain walk performed by the
mediator on behalf of `read` — the channel/driver implementation is not part
of the provided sources. After `addr₀ = base + offsets[0]`, each further
offset first dereferences the current address (a null or unreadable pointer
aborts the walk) and then adds the offset. The accumulator `count` is the
number of offsets resolved so far. -/
def walkChainAux (mem : RemoteMemory) : Nat → Nat → List Nat → Except ChainFailure Nat
  | addr, _, [] => .ok addr
  | addr, count, off :: rest =>
    match mem addr with
    | none => .error ⟨addr, count⟩
    | some v =>
      if v = 0 then .error ⟨addr, count⟩
      else walkChainAux mem (v + off) (count + 1) rest

/-- Modelled from the spec (§4.1): `addr₀ = base + offsets[0]`; the final
offset is a raw field offset and is not itself dereferenced. An empty chain
resolves to the base address. -/
def walkChain (mem : RemoteMemory) (base : Nat) (offsets : List Nat) :
    Except ChainFailure Nat :=
  match offsets with
  | [] => .ok base
  | off :: rest => walkChainAux mem (base + off) 1 rest

/-- Reading `n` bytes starting at `addr`; succeeds only when every byte in
the range is readable, and then returns exactly `n` bytes. -/
def readBytes (bytes : RemoteBytes) (addr : Nat) : Nat → Option (List Nat)
  | 0 => some []
  | n + 1 =>
    match bytes addr, readBytes bytes (addr + 1) n with
    | some b, some rest => some (b :: rest)
    | _, _ => none

/-- Outcome of one `read` call on the kernel interface channel: the result,
the number of IPC calls (IOCTLs) issued to the mediator, and the value of
the channel's running counter of total successful reads afterwards. -/
structure ReadOutcome where
  result : Except KInterfaceError (List Nat)
  ipc_calls : Nat
  total_read_calls : Nat
  deriving Repr

/-- Modelled from the spec (§4.1, §3, §5): `read(base, offset_chain, length)`
on the kernel interface channel. A chain longer than the mediator-enforced
`limit` is rejected locally with `TooManyOffsets` before any IPC; otherwise
exactly one IPC call is issued and the mediator walks the chain. An
invalid/zero intermediate pointer yields `InvalidAddress` carrying the
failing address, the resolved prefix of the chain with its count, and the
full chain with its count. A chain that resolves but whose final byte range
is unreadable fails with `RequestFailed`. The running counter
`total_read_calls` counts successful reads only. -/
def kernelRead (limit : Nat) (mem : RemoteMemory) (bytes : RemoteBytes)
    (total : Nat) (base : Nat) (offsets : List Nat) (length : Nat) : ReadOutcome :=
  if offsets.length > limit then
    ⟨.error (.tooManyOffsets offsets.length limit), 0, total⟩
  else
    match walkChain mem base offsets with
    | .error f =>
      ⟨.error (.invalidAddress f.target_address (offsets.take f.resolved_count)
          f.resolved_count offsets offsets.length), 1, total⟩
    | .ok addr =>
      match readBytes bytes addr length with
      | none => ⟨.error .requestFailed, 1, total⟩
      | some bs => ⟨.ok bs, 1, total + 1⟩

/-- An `(index, serial)` entity handle (spec §3, `EntityHandle<T>`; the type
tag plays no role in resolution and is dropped). -/
structure EntityHandle where
  index : Nat
  serial : Nat
  deriving Repr, DecidableEq

/-- A populated slot of the remote identity table: its current serial and
the address of the live instance (spec §3, `EntityIdentity`; the class-info
pointer plays no role in handle resolution). -/
structure EntityIdentity where
  serial : Nat
  entity_address : Nat
  deriving Repr, DecidableEq

/-- Modelled from the spec (§4.3): `get_by_handle` of the entity system —
its body is not part of the provided sources (only its callers in
`src/controller/src/enhancements/player.rs` and
`src/radar/client/src/generator.rs` are). `readSlot i` re-reads the identity
slot at index `i` (`none` = unused slot / index not in table); the entity is
returned only when the slot's current serial equals the handle's serial, and
a mismatch yields `none`, never an error. Reading the slot itself may fail
with a channel error, which propagates. -/
def get_by_handle {E : Type} (readSlot : Nat → Except E (Option EntityIdentity))
    (handle : EntityHandle) : Except E (Option EntityIdentity) :=
  match readSlot handle.index with
  | .error e => .error e
  | .ok none => .ok none
  | .ok (some slot) =>
    if slot.serial = handle.serial then .ok (some slot) else .ok none

/-- Association-list lookup used as the store of the memoizing cache. -/
def cacheFind {K V : Type} [DecidableEq K] : List (K × V) → K → Option V
  | [], _ => none
  | (k2, v) :: rest, k => if k2 = k then some v else cacheFind rest k

/-- Result of one `lookup` on the memoizing cache: the returned value (or
the population error), the cache state afterwards, and how many times the
population closure was invoked during this call. -/
structure LookupOutcome (K V E : Type) where
  result : Except E V
  cache : List (K × V)
  closure_calls : Nat

/-- Modelled from the spec (§4.4): `EntryCache::lookup` — the cache
implementation (`controller/src/cache.rs`) is not part of the provided
sources (only its construction site in `src/controller/src/main.rs` and its
caller in `src/controller/src/enhancements/player.rs` are). A hit returns
the cached value without invoking the population closure; a miss invokes the
closure exactly once, stores the result only on success, and a failed
population stores nothing. -/
def cacheLookup {K V E : Type} [DecidableEq K] (populate : K → Except E V)
    (cache : List (K × V)) (key : K) : LookupOutcome K V E :=
  match cacheFind cache key with
  | some v => ⟨.ok v, cache, 0⟩
  | none =>
    match populate key with
    | .ok v => ⟨.ok v, (key, v) :: cache, 1⟩
    | .error e => ⟨.error e, cache, 1⟩

/-- `CStr::from_bytes_until_nul` on a bounded byte buffer: the bytes
strictly before the first nul, or `none` when no nul terminator exists
within the bound. The function never inspects anything beyond the given
(bounded) buffer. -/
def bytesUntilNul : List Nat → Option (List Nat)
  | [] => none
  | b :: rest => if b = 0 then some [] else (bytesUntilNul rest).map (fun s => b :: s)

/-- Byte-wise decoding of a terminated name into a `String`. The source
additionally validates UTF-8 (`CStr::to_str` in the player path,
`CStr::to_string_lossy` in the radar path); that validation only concerns
buffers whose terminator exists and is orthogonal to the terminator
handling modelled here, so decoding is modelled byte-wise. -/
def bytesToString (bs : List Nat) : String :=
  String.mk (bs.map (fun b => Char.ofNat b))

/-- The player-name read of `PlayerESP::generate_player_info`
(`src/controller/src/enhancements/player.rs`, lines 131–135):
`CStr::from_bytes_until_nul(..).context("player name missing nul terminator")?`
— a buffer without a terminator within the bound becomes a typed error that
propagates to the caller. -/
def player_name_from_bytes (bytes : List Nat) : Except String String :=
  match bytesUntilNul bytes with
  | some s => .ok (bytesToString s)
  | none => .error "player name missing nul terminator"

/-- The defuser-name read of `planted_c4_to_radar_state`
(`src/radar/client/src/generator.rs`, lines 70–74):
`CStr::from_bytes_until_nul(..).ok().map(CStr::to_string_lossy).unwrap_or("Name Error".into())`
— a buffer without a terminator is replaced by the substitute string
`"Name Error"`. -/
def defuser_name_from_bytes (bytes : List Nat) : String :=
  match bytesUntilNul bytes with
  | some s => bytesToString s
  | none => "Name Error"

/-- Mutable state of the overlay main-loop closures in `main_overlay`
(`src/controller/src/main.rs`, lines 662–663): the consecutive-failure
counter and the optional cooldown `(set_at, duration)` (an `Instant` and a
`Duration`, modelled in milliseconds). -/
structure OverlayLoopState where
  update_fail_count : Nat
  update_timeout : Option (Nat × Nat)
  deriving Repr, DecidableEq

/-- Result of one overlay frame: the loop state afterwards, whether the
session continues (the closures returned `true`), and whether `app.update`
was attempted this frame. -/
structure FrameResult where
  state : OverlayLoopState
  continue_session : Bool
  update_attempted : Bool
  deriving Repr, DecidableEq

/-- The error-handling tail of the update closure
(`src/controller/src/main.rs`, lines 689–700), reached once an update is
actually attempted: on failure, if `update_fail_count >= 10` a one-second
cooldown starting `now` is installed and the counter is reset to zero;
otherwise the counter is incremented. A successful update leaves the
counter untouched (the source has no reset on the success path). -/
def frame_update_attempt (s : OverlayLoopState) (now : Nat) (update_ok : Bool) :
    FrameResult :=
  if update_ok then ⟨s, true, true⟩
  else if s.update_fail_count ≥ 10 then
    ⟨⟨0, some (now, 1000)⟩, true, true⟩
  else
    ⟨⟨s.update_fail_count + 1, s.update_timeout⟩, true, true⟩

/-- One frame of the overlay main loop (`src/controller/src/main.rs`,
lines 664–705). The first closure runs `app.pre_update`; a failure there
shows a critical error and returns `false`, ending the session — also
during a cooldown window. Otherwise the update closure runs: while a
cooldown is installed and `timeout.elapsed() > target` does not yet hold,
it returns without attempting an update; an elapsed cooldown is cleared and
the update is attempted again. `pre_ok` is the outcome of `app.pre_update`
and `update_ok` the outcome `app.update` would have this frame. -/
def overlay_frame (s : OverlayLoopState) (now : Nat) (pre_ok : Bool)
    (update_ok : Bool) : FrameResult :=
  if pre_ok = false then ⟨s, false, false⟩
  else
    match s.update_timeout with
    | some (start, target) =>
      if now - start > target then
        frame_update_attempt ⟨s.update_fail_count, none⟩ now update_ok
      else ⟨s, true, false⟩
    | none => frame_update_attempt s now update_ok

/-- A frame input: the current time in milliseconds, whether `pre_update`
succeeds, and whether `app.update` would succeed if attempted. -/
structure FrameInput where
  now : Nat
  pre_ok : Bool
  update_ok : Bool
  deriving Repr, DecidableEq

/-- Folding the overlay loop over a list of frame inputs, starting from
state `s` (the session is assumed to keep running). -/
def runFrames (s : OverlayLoopState) : List FrameInput → OverlayLoopState
  | [] => s
  | f :: rest => runFrames (overlay_frame s f.now f.pre_ok f.update_ok).state rest

/-- The number of trailing `update_ok = false` entries of a frame trace:
how many consecutive update failures immediately precede the end. -/
def trailingFailures (frames : List FrameInput) : Nat :=
  (frames.reverse.takeWhile (fun f => f.update_ok = false)).length

/-- The initial loop state of `main_overlay`: `update_fail_count = 0`,
no cooldown installed (`src/controller/src/main.rs`, lines 662–663). -/
def initialLoopState : OverlayLoopState := ⟨0, none⟩

/-- A concrete frame trace (times 0,1,…; `pre_update` always succeeds):
ten update failures, then one successful update, then one more failure. -/
def breakerTrace : List FrameInput :=
  (List.range 10).map (fun i => ⟨i, true, false⟩) ++ [⟨10, true, true⟩, ⟨11, true, false⟩]

/-- Human-readable rendering of a protocol version number, standing for the
`driver_version_string` / `requested_version_string` fields. Modelled from
the spec (§4.1): the handshake reports human-readable version strings. -/
def version_string (v : Nat) : String := toString v

/-- Modelled from the spec (§4.1, §8): the version handshake of the open
sequence — the channel implementation is not part of the provided sources
(only its error taxonomy in `src/kernel/interface/src/error.rs` and its
caller in `src/controller/src/main.rs` are). The driver reports
`driver_version`; a version lower than the compiled-in requested version
fails with `DriverTooOld`, a higher one with `DriverTooNew`, both carrying
the numeric versions and their human-readable renderings. -/
def openHandshake (driver_version requested_version : Nat) :
    Except KInterfaceError Unit :=
  if driver_version < requested_version then
    .error (.driverTooOld driver_version (version_string driver_version)
      requested_version (version_string requested_version))
  else if requested_version < driver_version then
    .error (.driverTooNew driver_version (version_string driver_version)
      requested_version (version_string requested_version))
  else .ok ()

/-- What `main_overlay` does with an error from `CS2Handle::create`. -/
inductive CallerAction where
  | abortWithMessage (message : String)
  | propagate (err : KInterfaceError)
  deriving Repr, DecidableEq

/-- The error handling of `CS2Handle::create` in `main_overlay`
(`src/controller/src/main.rs`, lines 471–520), branch for branch: the
version-mismatch errors and `ProcessDoesNotExists` abort with a critical
error message (for the version mismatches, the message reports both
human-readable version strings); `DeviceUnavailable` with code `0x80070002`
aborts with a driver-not-found message; everything else propagates. No
branch retries the open. -/
def handleCreateError (err : KInterfaceError) : CallerAction :=
  match err with
  | .deviceUnavailable code =>
    if code = 0x80070002 then
      .abortWithMessage "无法找到内核驱动程序接口。"
    else .propagate err
  | .driverTooOld _ dvs _ rvs =>
    .abortWithMessage
      ("已加载的 Valthrun-CHS 驱动程序版本太低。" ++ "\n\n已加载驱动版本: " ++ dvs
        ++ "\n需要驱动版本: " ++ rvs)
  | .driverTooNew _ dvs _ rvs =>
    .abortWithMessage
      ("已加载的 Valthrun-CHS 驱动程序版本太高。" ++ "\n\n已加载驱动版本: " ++ dvs
        ++ "\n需要驱动版本: " ++ rvs)
  | .processDoesNotExists => .abortWithMessage "无法找到游戏进程。"
  | e => .propagate e

/-- The read-volume fields of `Application`
(`src/controller/src/main.rs`, lines 155–156). -/
structure ReadCallCounters where
  frame_read_calls : Nat
  last_total_read_calls : Nat
  deriving Repr, DecidableEq

/-- The counter bookkeeping at the end of `Application::update`
(`src/controller/src/main.rs`, lines 279–281): read the channel's running
counter of total successful reads, report the difference to the value
stored at the end of the previous tick, and store the current value. -/
def update_read_counters (s : ReadCallCounters) (total_read_calls : Nat) :
    ReadCallCounters :=
  ⟨total_read_calls - s.last_total_read_calls, total_read_calls⟩

/-- `Application::update` as far as the read counters are concerned: the
body (view-matrix update, entity rescan, cache update, enhancement updates)
either fails — propagating the error before the counter lines are reached —
or succeeds, leaving the channel's total-successful-read counter at
`total`; only then are the counters updated. -/
def application_update (s : ReadCallCounters) (body : Except String Nat) :
    Except String ReadCallCounters :=
  match body with
  | .error e => .error e
  | .ok total => .ok (update_read_counters s total)

/-- The `imgui::Key` values used by the settings defaults
(`src/controller/src/settings/mod.rs`); other key codes are irrelevant to
the claims and collapsed into `other`. -/
inductive ImguiKey where
  | pause
  | mouseMiddle
  | other (code : Nat)
  deriving Repr, DecidableEq

/-- `HotKey(pub Key)` from the settings module (wrapper around an imgui
key code). -/
structure HotKey where
  key : ImguiKey
  deriving Repr, DecidableEq

/-- `fn bool_true() -> bool` (`src/controller/src/settings/mod.rs`). -/
def bool_true : Bool := true

/-- `fn bool_false() -> bool` (`src/controller/src/settings/mod.rs`). -/
def bool_false : Bool := false

/-- `fn default_esp_color_team()` (`src/controller/src/settings/mod.rs`). -/
def default_esp_color_team : List ℚ := [0, 1, 0, 3 / 4]

/-- `fn default_esp_color_enemy()` (`src/controller/src/settings/mod.rs`). -/
def default_esp_color_enemy : List ℚ := [1, 0, 0, 3 / 4]

/-- `fn default_esp_skeleton_thickness()` (`src/controller/src/settings/mod.rs`). -/
def default_esp_skeleton_thickness : ℚ := 3

/-- `fn default_esp_boxes_thickness()` (`src/controller/src/settings/mod.rs`). -/
def default_esp_boxes_thickness : ℚ := 3

/-- `fn default_u32::<V>()` (`src/controller/src/settings/mod.rs`). -/
def default_u32 (v : Nat) : Nat := v

/-- `fn default_i32::<V>()` (`src/controller/src/settings/mod.rs`). -/
def default_i32 (v : Int) : Int := v

/-- `fn default_key_settings() -> HotKey` (`src/controller/src/settings/mod.rs`). -/
def default_key_settings : HotKey := ⟨.pause⟩

/-- `fn default_key_trigger_bot() -> Option<HotKey>`
(`src/controller/src/settings/mod.rs`). -/
def default_key_trigger_bot : Option HotKey := some ⟨.mouseMiddle⟩

/-- `fn default_key_none() -> Option<HotKey>`
(`src/controller/src/settings/mod.rs`). -/
def default_key_none : Option HotKey := none

/-- `AppSettings`, field-for-field from `src/controller/src/settings/mod.rs`
(lines 49–125), in declaration order. `f32` fields are modelled as `ℚ`,
`u32` as `Nat`, `i32` as `Int`. -/
structure AppSettings where
  key_settings : HotKey
  esp : Bool
  esp_toogle : Option HotKey
  esp_skeleton : Bool
  esp_skeleton_thickness : ℚ
  esp_boxes : Bool
  esp_boxes_thickness : ℚ
  esp_health : Bool
  bomb_timer : Bool
  valthrun_watermark : Bool
  esp_color_team : List ℚ
  esp_enabled_team : Bool
  esp_color_enemy : List ℚ
  esp_enabled_enemy : Bool
  mouse_x_360 : Int
  key_trigger_bot : Option HotKey
  trigger_bot_team_check : Bool
  trigger_bot_delay_min : Nat
  trigger_bot_delay_max : Nat
  trigger_bot_check_target_after_delay : Bool
  aim_assist_recoil : Bool
  hide_overlay_from_screen_capture : Bool
  overlay_fps_limit : Nat
  render_debug_window : Bool
  imgui : Option String

/-- The `AppSettings` produced by deserializing the empty configuration
document: serde fills every field from its `#[serde(default ...)]`
attribute — the named default functions above, or the type's `Default`
(`false` for `bool`, `None` for `Option`) where the attribute names no
function (`esp_boxes`, `imgui`). Field order and attributes follow
`src/controller/src/settings/mod.rs`, lines 49–125. -/
def emptyConfigAppSettings : AppSettings where
  key_settings := default_key_settings
  esp := bool_true
  esp_toogle := default_key_none
  esp_skeleton := bool_true
  esp_skeleton_thickness := default_esp_skeleton_thickness
  esp_boxes := false
  esp_boxes_thickness := default_esp_boxes_thickness
  esp_health := bool_false
  bomb_timer := bool_true
  valthrun_watermark := bool_true
  esp_color_team := default_esp_color_team
  esp_enabled_team := bool_true
  esp_color_enemy := default_esp_color_enemy
  esp_enabled_enemy := bool_true
  mouse_x_360 := default_i32 16364
  key_trigger_bot := default_key_trigger_bot
  trigger_bot_team_check := bool_true
  trigger_bot_delay_min := default_u32 10
  trigger_bot_delay_max := default_u32 20
  trigger_bot_check_target_after_delay := bool_false
  aim_assist_recoil := bool_false
  hide_overlay_from_screen_capture := bool_true
  overlay_fps_limit := default_u32 0
  render_debug_window := bool_false
  imgui := none

/-- `load_app_settings` (`src/controller/src/settings/mod.rs`,
lines 134–161). The filesystem is passed in as the optional content of
`config.yaml`: when the file does not exist the function deserializes the
empty document — every field its declared default — and succeeds; otherwise
it parses the file's content with the YAML parser `parse`. -/
def load_app_settings (parse : String → Except String AppSettings)
    (config_file : Option String) : Except String AppSettings :=
  match config_file with
  | none => .ok emptyConfigAppSettings
  | some content => parse content

/-- The result of `CCSPlayerController::m_hPlayerPawn()`: an entity handle
together with the outcome of its `is_valid()` check (the check itself lives
in the schema library outside the provided sources, so its verdict is
carried as data). -/
structure CHandle where
  handle : EntityHandle
  valid : Bool
  deriving Repr, DecidableEq

/-- The fields of the `CSkeletonInstance` scene node read by
`generate_player_info`; each accessor is a fallible remote read. -/
structure SceneNodeFields where
  m_bDormant : Except String Bool
  m_vecAbsOrigin : Except String (List ℚ)

/-- `CS2Model` as used by `generate_player_info`: only the bone list (its
length drives `read_entries`) and the hull vectors are relevant; per-bone
render data is irrelevant to the claims and kept abstract as one `Nat` per
bone. -/
structure CS2Model where
  bones : List Nat
  vhull_min : List ℚ
  vhull_max : List ℚ

/-- The fields of `C_CSPlayerPawn` read by `generate_player_info`, each as
the outcome of its fallible remote read: `m_iHealth()`, the scene-node read
(`m_pGameSceneNode()?.cast::<CSkeletonInstance>().read_schema()?`), the
model address (`m_modelState()?.m_hModel()?.read_schema()?.address()?`) and
the bone-state read
(`bone_state_data()?.read_entries(..)?` followed by the per-bone
conversion). -/
structure PawnFields where
  m_iHealth : Except String Int
  sceneNode : Except String SceneNodeFields
  modelAddress : Except String Nat
  boneStates : Except String (List (List ℚ))

/-- The fields of `CCSPlayerController` read by `generate_player_info`,
each as the outcome of its fallible remote read. `m_iszPlayerName` is the
bounded byte buffer before C-string interpretation. -/
structure ControllerFields where
  m_hPlayerPawn : Except String CHandle
  m_iTeamNum : Except String Nat
  m_iszPlayerName : Except String (List Nat)
  m_bIsLocalPlayerController : Except String Bool

/-- The remote-process environment one update tick runs against: the
identity-table slots (for `get_by_handle`), the pawn snapshot readable at an
entity address, and the model-cache population closure installed in
`main_overlay` (`src/controller/src/main.rs`, lines 611–624). -/
structure World where
  readSlot : Nat → Except String (Option EntityIdentity)
  readPawn : Nat → Except String PawnFields
  populateModel : Nat → Except String CS2Model

/-- `TeamType` (`src/controller/src/enhancements/player.rs`, lines 15–20). -/
inductive TeamType where
  | localPlayer
  | enemy
  | friendly
  deriving Repr, DecidableEq

/-- `PlayerInfo` (`src/controller/src/enhancements/player.rs`, lines 22–31). -/
structure PlayerInfo where
  team_type : TeamType
  player_health : Int
  player_name : String
  position : List ℚ
  model : CS2Model
  bone_states : List (List ℚ)

/-- The model cache shared through `UpdateContext.model_cache`. -/
def ModelCache : Type := List (Nat × CS2Model)

/-- `PlayerESP::generate_player_info`
(`src/controller/src/enhancements/player.rs`, lines 92–172), step for step
in source order: read the controller schema; an invalid pawn handle, an
unresolvable pawn handle, non-positive health or a dormant scene node yield
`Ok(None)`; every failing remote read propagates as an error; the player
name must be nul-terminated (`player_name_from_bytes`); the model is
obtained through the memoizing cache (`cacheLookup`), whose updated state is
returned alongside. -/
def generate_player_info (world : World) (cache : ModelCache) (local_team : Nat)
    (player_controller : Except String ControllerFields) :
    Except String (Option PlayerInfo) × ModelCache :=
  match player_controller with
  | .error e => (.error e, cache)
  | .ok pc =>
    match pc.m_hPlayerPawn with
    | .error e => (.error e, cache)
    | .ok player_pawn =>
      if player_pawn.valid = false then (.ok none, cache)
      else
        match get_by_handle world.readSlot player_pawn.handle with
        | .error e => (.error e, cache)
        | .ok none => (.ok none, cache)
        | .ok (some ident) =>
          match world.readPawn ident.entity_address with
          | .error e => (.error e, cache)
          | .ok pawn =>
            match pawn.m_iHealth with
            | .error e => (.error e, cache)
            | .ok player_health =>
              if player_health ≤ 0 then (.ok none, cache)
              else
                match pawn.sceneNode with
                | .error e => (.error e, cache)
                | .ok node =>
                  match node.m_bDormant with
                  | .error e => (.error e, cache)
                  | .ok dormant =>
                    if dormant then (.ok none, cache)
                    else
                      match pc.m_iTeamNum with
                      | .error e => (.error e, cache)
                      | .ok player_team =>
                        match pc.m_iszPlayerName with
                        | .error e => (.error e, cache)
                        | .ok name_bytes =>
                          match player_name_from_bytes name_bytes with
                          | .error e => (.error e, cache)
                          | .ok player_name =>
                            match node.m_vecAbsOrigin with
                            | .error e => (.error e, cache)
                            | .ok position =>
                              match pawn.modelAddress with
                              | .error e => (.error e, cache)
                              | .ok model_address =>
                                match cacheLookup world.populateModel cache model_address with
                                | ⟨.error e, cache2, _⟩ => (.error e, cache2)
                                | ⟨.ok model, cache2, _⟩ =>
                                  match pawn.boneStates with
                                  | .error e => (.error e, cache2)
                                  | .ok bone_states =>
                                    match pc.m_bIsLocalPlayerController with
                                    | .error e => (.error e, cache2)
                                    | .ok is_local =>
                                      let team_type : TeamType :=
                                        if is_local then .localPlayer
                                        else if local_team = player_team then .friendly
                                        else .enemy
                                      (.ok (some ⟨team_type, player_health, player_name,
                                        position, model, bone_states⟩), cache2)

/-- The fields of the local `CCSPlayerController` read by
`PlayerESP::update`. -/
structure LocalControllerFields where
  m_iPendingTeamNum : Except String Nat

/-- The subset of `AppSettings` consulted by `PlayerESP::update`. -/
structure EspSettings where
  esp : Bool
  esp_boxes : Bool
  esp_skeleton : Bool
  deriving Repr, DecidableEq

/-- The per-tick inputs of `PlayerESP::update`: the settings, the world,
the local-player-controller read (`none` when the pointer is null, i.e. not
connected) and the controller list from `get_player_controllers` (each
entry carrying the outcome of its later schema read). -/
structure EspUpdateContext where
  settings : EspSettings
  world : World
  local_controller : Except String (Option LocalControllerFields)
  player_controllers : Except String (List (Except String ControllerFields))

/-- The fold body of the controller loop in `PlayerESP::update`
(`src/controller/src/enhancements/player.rs`, lines 217–229): a generated
`Some(info)` is pushed, `None` is skipped, and an error is logged and
skipped — it never aborts the pass. The model-cache state threads through. -/
def esp_update_step (world : World) (local_team : Nat)
    (acc : List PlayerInfo × ModelCache) (pc : Except String ControllerFields) :
    List PlayerInfo × ModelCache :=
  match generate_player_info world acc.2 local_team pc with
  | (.ok (some info), cache2) => (acc.1 ++ [info], cache2)
  | (.ok none, cache2) => (acc.1, cache2)
  | (.error _, cache2) => (acc.1, cache2)

/-- `PlayerESP::update` (`src/controller/src/enhancements/player.rs`,
lines 194–232): the players list is cleared; when ESP is disabled — or
neither boxes nor skeleton rendering is on — the pass ends with an empty
list; a null local controller likewise; otherwise the pending team number
is read and every player controller is processed by `esp_update_step`.
Returns the new players list (or the error that aborted the pass) together
with the model-cache state. -/
def playerESP_update (ctx : EspUpdateContext) (cache : ModelCache) :
    Except String (List PlayerInfo) × ModelCache :=
  if !ctx.settings.esp || !(ctx.settings.esp_boxes || ctx.settings.esp_skeleton) then
    (.ok [], cache)
  else
    match ctx.local_controller with
    | .error e => (.error e, cache)
    | .ok none => (.ok [], cache)
    | .ok (some lc) =>
      match lc.m_iPendingTeamNum with
      | .error e => (.error e, cache)
      | .ok local_team =>
        match ctx.player_controllers with
        | .error e => (.error e, cache)
        | .ok pcs =>
          let res := pcs.foldl (esp_update_step ctx.world local_team) ([], cache)
          (.ok res.1, res.2)

theorem toDigitsCore_length_le_length (b : Nat) :
    ∀ (f n : Nat) (l : List Char), l.length ≤ (Nat.toDigitsCore b f n l).length := by
  intro f
  induction f with
  | zero => intro n l; simp [Nat.toDigitsCore]
  | succ f ih =>
    intro n l
    simp only [Nat.toDigitsCore]
    split
    · simp
    · exact le_trans (by simp) (ih (n / b) (Nat.digitChar (n % b) :: l))

theorem toDigits_ne_nil (b n : Nat) : Nat.toDigits b n ≠ [] := by
  unfold Nat.toDigits Nat.toDigitsCore
  dsimp only
  by_cases hdiv : n / b = 0
  · simp [hdiv]
  · rw [if_neg hdiv]
    intro hcontra
    have hlen := toDigitsCore_length_le_length b n (n / b) [Nat.digitChar (n % b)]
    rw [hcontra] at hlen
    simp at hlen

theorem version_string_ne_empty (v : Nat) : version_string v ≠ "" := by
  unfold version_string
  intro h
  apply toDigits_ne_nil 10 v
  have h2 : (Nat.toDigits 10 v).asString = "" := h
  simpa [List.asString, String.ext_iff] using h2

/-- C1: `get_by_handle` re-reads the identity slot at `handle.index`; when
the slot's current serial differs from the handle's serial the call returns
`Ok(None)` — never an error and never an object —, and only a matching
serial returns the slot's own entity. -/
theorem get_by_handle_serial_validation {E : Type}
    (readSlot : Nat → Except E (Option EntityIdentity)) (h : EntityHandle)
    (slot : EntityIdentity) (hread : readSlot h.index = .ok (some slot)) :
    (slot.serial ≠ h.serial → get_by_handle readSlot h = .ok none)
    ∧ (slot.serial = h.serial → get_by_handle readSlot h = .ok (some slot)) := by
  unfold get_by_handle
  rw [hread]
  constructor
  · intro hne
    simp [hne]
  · intro heq
    simp [heq]

theorem get_by_handle_serial_validation_witness :
    get_by_handle (fun _ => (.ok (some ⟨7, 0x1000⟩) : Except String (Option EntityIdentity)))
      ⟨2, 5⟩ = .ok none :=
  (get_by_handle_serial_validation
    (fun _ => (.ok (some ⟨7, 0x1000⟩) : Except String (Option EntityIdentity)))
    ⟨2, 5⟩ ⟨7, 0x1000⟩ rfl).1 (by decide)

/-- C2: a cache hit returns the cached value without invoking the
population closure; a miss invokes it exactly once, stores the result only
on success (so the immediately following lookup of the same key is a hit
with an equal value and zero invocations), and a failed population stores
nothing, so the next lookup misses again and re-invokes the closure. -/
theorem cache_lookup_population {K V E : Type} [DecidableEq K]
    (populate : K → Except E V) (cache : List (K × V)) (k : K)
    (hmiss : cacheFind cache k = none) :
    (∀ v, populate k = .ok v →
        cacheLookup populate cache k = ⟨.ok v, (k, v) :: cache, 1⟩
        ∧ cacheLookup populate ((k, v) :: cache) k = ⟨.ok v, (k, v) :: cache, 0⟩)
    ∧ (∀ e, populate k = .error e →
        cacheLookup populate cache k = ⟨.error e, cache, 1⟩
        ∧ (cacheLookup populate cache k).closure_calls = 1) := by
  constructor
  · intro v hok
    constructor
    · unfold cacheLookup
      rw [hmiss, hok]
    · unfold cacheLookup
      simp [cacheFind]
  · intro e herr
    have hres : cacheLookup populate cache k = ⟨.error e, cache, 1⟩ := by
      unfold cacheLookup
      rw [hmiss, herr]
    exact ⟨hres, by rw [hres]⟩

theorem cache_lookup_population_witness :
    cacheLookup (fun _ : Nat => (.ok 42 : Except String Nat)) [] 1 = ⟨.ok 42, [(1, 42)], 1⟩
    ∧ cacheLookup (fun _ : Nat => (.ok 42 : Except String Nat)) [(1, 42)] 1
        = ⟨.ok 42, [(1, 42)], 0⟩ :=
  (cache_lookup_population (fun _ : Nat => (.ok 42 : Except String Nat)) [] 1 rfl).1 42 rfl

/-- C4: an offset chain longer than the mediator-enforced maximum is
rejected locally with `TooManyOffsets` carrying the provided count and the
limit, and zero IPC calls are issued. -/
theorem read_too_many_offsets_no_ipc (limit : Nat) (mem : RemoteMemory)
    (bytes : RemoteBytes) (total base length : Nat) (offsets : List Nat)
    (hlen : offsets.length > limit) :
    kernelRead limit mem bytes total base offsets length
      = ⟨.error (.tooManyOffsets offsets.length limit), 0, total⟩ := by
  unfold kernelRead
  rw [if_pos hlen]

theorem read_too_many_offsets_no_ipc_witness :
    kernelRead 2 (fun _ => none) (fun _ => none) 0 0 [1, 2, 3] 4
      = ⟨.error (.tooManyOffsets 3 2), 0, 0⟩ :=
  read_too_many_offsets_no_ipc 2 (fun _ => none) (fun _ => none) 0 0 4 [1, 2, 3]
    (by decide)

/-- C5: when an intermediate dereference of the chain yields an invalid or
zero pointer, `read` fails with `InvalidAddress` carrying the failing
target address, the resolved prefix of the chain together with
`resolved_offset_count`, and the full chain with its count; in particular a
chain `[0x10, 0x20]` whose first dereference yields `0` fails with
`resolved_offset_count = 1`. -/
theorem read_invalid_address_diagnostics :
    (∀ (limit : Nat) (mem : RemoteMemory) (bytes : RemoteBytes)
        (total base length : Nat) (offsets : List Nat) (f : ChainFailure),
        ¬ offsets.length > limit → walkChain mem base offsets = .error f →
        kernelRead limit mem bytes total base offsets length
          = ⟨.error (.invalidAddress f.target_address (offsets.take f.resolved_count)
              f.resolved_count offsets offsets.length), 1, total⟩)
    ∧ (∀ (limit : Nat) (mem : RemoteMemory) (bytes : RemoteBytes)
        (total base length : Nat),
        ¬ (2 : Nat) > limit → mem (base + 0x10) = some 0 →
        kernelRead limit mem bytes total base [0x10, 0x20] length
          = ⟨.error (.invalidAddress (base + 0x10) [0x10] 1 [0x10, 0x20] 2), 1, total⟩) := by
  have hgen : ∀ (limit : Nat) (mem : RemoteMemory) (bytes : RemoteBytes)
      (total base length : Nat) (offsets : List Nat) (f : ChainFailure),
      ¬ offsets.length > limit → walkChain mem base offsets = .error f →
      kernelRead limit mem bytes total base offsets length
        = ⟨.error (.invalidAddress f.target_address (offsets.take f.resolved_count)
            f.resolved_count offsets offsets.length), 1, total⟩ := by
    intro limit mem bytes total base length offsets f hlen hw
    unfold kernelRead
    rw [if_neg hlen, hw]
  refine ⟨hgen, ?_⟩
  intro limit mem bytes total base length hlim hderef
  have hw : walkChain mem base [0x10, 0x20] = .error ⟨base + 0x10, 1⟩ := by
    unfold walkChain walkChainAux
    rw [hderef]
    simp
  simpa using hgen limit mem bytes total base length [0x10, 0x20] ⟨base + 0x10, 1⟩ hlim hw

theorem read_invalid_address_diagnostics_witness :
    kernelRead 31 (fun a => if a = 0x4010 then some 0 else none) (fun _ => none)
      5 0x4000 [0x10, 0x20] 8
      = ⟨.error (.invalidAddress 0x4010 [0x10] 1 [0x10, 0x20] 2), 1, 5⟩ := by
  have := read_invalid_address_diagnostics.2 31
    (fun a => if a = 0x4010 then some 0 else none) (fun _ => none) 5 0x4000 8
    (by decide) (by norm_num)
  simpa using this

/-- C6 counterexample: the failure counter of the update loop is never
reset by a successful tick, so the threshold is not reached only by
consecutive failures. Running the loop on a concrete trace of ten failures,
one success, and one further failure installs the one-second cooldown on
the final frame, although only a single consecutive failure precedes it
(frame 10 succeeded), and no cooldown was installed before that frame. -/
theorem circuit_breaker_nonconsecutive_cex :
    (runFrames initialLoopState breakerTrace).update_timeout = some (11, 1000)
    ∧ (runFrames initialLoopState (breakerTrace.take 11)).update_timeout = none
    ∧ breakerTrace[10]? = some ⟨10, true, true⟩
    ∧ trailingFailures breakerTrace = 1 := by decide

/-- C6 (amended): a failing update while the accumulated failure counter
has reached 10 installs a one-second (1000 ms) cooldown starting now and
resets the counter; below the threshold a failure increments the counter
while a successful update leaves it untouched (no reset, so the threshold
need not be reached by consecutive failures); while the cooldown has not
elapsed no update is attempted and the state is kept; a pre-update fatal
error terminates the session, also during the cooldown window. -/
theorem circuit_breaker_behaviour :
    (∀ count now, count ≥ 10 →
        frame_update_attempt ⟨count, none⟩ now false = ⟨⟨0, some (now, 1000)⟩, true, true⟩)
    ∧ (∀ count t now, count < 10 →
        frame_update_attempt ⟨count, t⟩ now false = ⟨⟨count + 1, t⟩, true, true⟩)
    ∧ (∀ s now, frame_update_attempt s now true = ⟨s, true, true⟩)
    ∧ (∀ fc start target now uok, ¬ now - start > target →
        overlay_frame ⟨fc, some (start, target)⟩ now true uok
          = ⟨⟨fc, some (start, target)⟩, true, false⟩)
    ∧ (∀ s now uok, overlay_frame s now false uok = ⟨s, false, false⟩) := by
  refine ⟨?_, ?_, ?_, ?_, ?_⟩
  · intro count now hcount
    simp [frame_update_attempt, hcount]
  · intro count t now hcount
    have hnot : ¬ count ≥ 10 := by omega
    simp [frame_update_attempt, hnot]
  · intro s now
    simp [frame_update_attempt]
  · intro fc start target now uok hnot
    simp [overlay_frame, hnot]
  · intro s now uok
    simp [overlay_frame]

theorem circuit_breaker_behaviour_witness :
    frame_update_attempt ⟨10, none⟩ 7 false = ⟨⟨0, some (7, 1000)⟩, true, true⟩ :=
  circuit_breaker_behaviour.1 10 7 (by decide)

/-- C7: when the driver reports a protocol version lower than the
compiled-in requested version, the open handshake fails with
`DriverTooOld` carrying both numeric versions and both human-readable
version strings (which are never empty), and `main_overlay` reacts to this
error by aborting with a message reporting both version strings — it never
retries the open. -/
theorem open_handshake_driver_too_old (driver requested : Nat)
    (hlt : driver < requested) :
    openHandshake driver requested
      = .error (.driverTooOld driver (version_string driver)
          requested (version_string requested))
    ∧ version_string driver ≠ ""
    ∧ version_string requested ≠ ""
    ∧ handleCreateError (.driverTooOld driver (version_string driver)
          requested (version_string requested))
        = .abortWithMessage
          ("已加载的 Valthrun-CHS 驱动程序版本太低。" ++ "\n\n已加载驱动版本: "
            ++ version_string driver ++ "\n需要驱动版本: " ++ version_string requested) := by
  refine ⟨?_, version_string_ne_empty driver, version_string_ne_empty requested, rfl⟩
  unfold openHandshake
  rw [if_pos hlt]

theorem open_handshake_driver_too_old_witness :
    openHandshake 3 5
      = .error (.driverTooOld 3 (version_string 3) 5 (version_string 5))
    ∧ version_string 3 ≠ "" ∧ version_string 5 ≠ "" :=
  ⟨(open_handshake_driver_too_old 3 5 (by decide)).1,
   (open_handshake_driver_too_old 3 5 (by decide)).2.1,
   (open_handshake_driver_too_old 3 5 (by decide)).2.2.1⟩

/-- C8: the channel's running counter of total successful reads increments
by one exactly on a successful read and is unchanged on a failed one, and
a successful `Application::update` tick sets `frame_read_calls` to the
counter's current value minus the value stored at the end of the previous
tick and then stores the current value (a failing tick propagates its error
before the counter lines are reached). -/
theorem read_counter_per_tick_reporting :
    (∀ (s : ReadCallCounters) (total : Nat),
        application_update s (.ok total)
          = .ok ⟨total - s.last_total_read_calls, total⟩)
    ∧ (∀ (s : ReadCallCounters) (e : String),
        application_update s (.error e) = .error e)
    ∧ (∀ (limit : Nat) (mem : RemoteMemory) (bytes : RemoteBytes)
        (total base length : Nat) (offsets : List Nat)
        (bs : List Nat) (ipc t : Nat),
        kernelRead limit mem bytes total base offsets length = ⟨.ok bs, ipc, t⟩ →
        t = total + 1)
    ∧ (∀ (limit : Nat) (mem : RemoteMemory) (bytes : RemoteBytes)
        (total base length : Nat) (offsets : List Nat)
        (e : KInterfaceError) (ipc t : Nat),
        kernelRead limit mem bytes total base offsets length = ⟨.error e, ipc, t⟩ →
        t = total) := by
  refine ⟨fun s total => rfl, fun s e => rfl, ?_, ?_⟩
  · intro limit mem bytes total base length offsets bs ipc t h
    unfold kernelRead at h
    split at h
    · simp_all
    · split at h
      · simp_all
      · split at h
        · simp_all
        · simp at h
          omega
  · intro limit mem bytes total base length offsets e ipc t h
    unfold kernelRead at h
    split at h
    · simp_all
    · split at h
      · simp_all
      · split at h
        · simp_all
        · simp_all

theorem read_counter_per_tick_reporting_witness :
    application_update ⟨0, 3⟩ (.ok 10) = .ok ⟨7, 10⟩
    ∧ kernelRead 2 (fun _ => some 1) (fun _ => some 0xAB) 7 0 [0] 1
        = ⟨.ok [0xAB], 1, 8⟩
    ∧ (8 : Nat) = 7 + 1 :=
  ⟨read_counter_per_tick_reporting.1 ⟨0, 3⟩ 10, rfl,
   read_counter_per_tick_reporting.2.2.1 2 (fun _ => some 1) (fun _ => some 0xAB)
     7 0 1 [0] [0xAB] 1 8 (by rfl)⟩

/-- C3 counterexample: at the concrete buffer `[0x41, 0x42]` — which has no
nul terminator within its bound — the radar generator's defuser-name read
silently coerces the missing terminator into the substitute value
`"Name Error"` instead of propagating an error, while the player-ESP path
does propagate a typed error; so the claim's "never silently coerced into a
substitute value" is false for the radar call site. -/
theorem missing_terminator_coerced_cex :
    defuser_name_from_bytes [0x41, 0x42] = "Name Error"
    ∧ bytesUntilNul [0x41, 0x42] = none
    ∧ player_name_from_bytes [0x41, 0x42]
        = .error "player name missing nul terminator" :=
  ⟨rfl, rfl, rfl⟩

/-- C3 (amended): a bounded byte buffer without a nul terminator is never
read past its bound (the parse only ever returns a nul-free prefix of the
buffer); in the player-ESP path (`player.rs` 131–135) the missing
terminator propagates as a typed validation error, while in the radar
defuser-name path (`generator.rs` 70–74) it is coerced to the substitute
string `"Name Error"`; a terminator is missing exactly when the buffer
contains no nul byte. -/
theorem c_string_terminator_handling :
    (∀ bytes, bytesUntilNul bytes = none →
        player_name_from_bytes bytes = .error "player name missing nul terminator")
    ∧ (∀ bytes, bytesUntilNul bytes = none → defuser_name_from_bytes bytes = "Name Error")
    ∧ (∀ bytes s, bytesUntilNul bytes = some s → 0 ∉ s ∧ ∃ rest, bytes = s ++ 0 :: rest)
    ∧ (∀ bytes, bytesUntilNul bytes = none ↔ 0 ∉ bytes) := by
  refine ⟨?_, ?_, ?_, ?_⟩
  · intro bytes h
    unfold player_name_from_bytes
    rw [h]
  · intro bytes h
    unfold defuser_name_from_bytes
    rw [h]
  · intro bytes
    induction bytes with
    | nil => intro s h; simp [bytesUntilNul] at h
    | cons b rest ih =>
      intro s h
      unfold bytesUntilNul at h
      by_cases hb : b = 0
      · rw [if_pos hb] at h
        obtain rfl : ([] : List Nat) = s := by simpa using h
        subst hb
        exact ⟨by simp, rest, by simp⟩
      · rw [if_neg hb] at h
        obtain ⟨s0, hs0, rfl⟩ : ∃ s0, bytesUntilNul rest = some s0 ∧ b :: s0 = s := by
          cases hr : bytesUntilNul rest with
          | none => rw [hr] at h; simp at h
          | some s0 => rw [hr] at h; simp at h; exact ⟨s0, rfl, h⟩
        obtain ⟨hnotin, r, hr⟩ := ih s0 hs0
        refine ⟨?_, r, by simp [hr]⟩
        simp only [List.mem_cons, not_or]
        exact ⟨fun h0 => hb h0.symm, hnotin⟩
  · intro bytes
    induction bytes with
    | nil => simp [bytesUntilNul]
    | cons b rest ih =>
      unfold bytesUntilNul
      by_cases hb : b = 0
      · subst hb; simp
      · rw [if_neg hb]
        constructor
        · intro hnone
          cases hr : bytesUntilNul rest with
          | none =>
            have h0 : 0 ∉ rest := ih.mp hr
            simp only [List.mem_cons, not_or]
            exact ⟨fun h0eq => hb h0eq.symm, h0⟩
          | some s =>
            rw [hr] at hnone
            simp at hnone
        · intro hnot
          have h0 : 0 ∉ rest := by
            intro hmem
            exact hnot (List.mem_cons_of_mem b hmem)
          rw [ih.mpr h0]
          rfl

theorem c_string_terminator_handling_witness :
    player_name_from_bytes [0x41] = .error "player name missing nul terminator"
    ∧ defuser_name_from_bytes [0x41] = "Name Error" :=
  ⟨c_string_terminator_handling.1 [0x41] rfl,
   c_string_terminator_handling.2.1 [0x41] rfl⟩

/-- C9: with no configuration file present, `load_app_settings` succeeds
(it deserializes the empty document) and every field of the result holds
its declared serde default — the values listed in the claim — rather than a
zeroed value. -/
theorem load_app_settings_missing_file_defaults
    (parse : String → Except String AppSettings) :
    load_app_settings parse none = .ok emptyConfigAppSettings
    ∧ emptyConfigAppSettings.esp = true
    ∧ emptyConfigAppSettings.esp_skeleton = true
    ∧ emptyConfigAppSettings.esp_boxes = false
    ∧ emptyConfigAppSettings.esp_health = false
    ∧ emptyConfigAppSettings.bomb_timer = true
    ∧ emptyConfigAppSettings.valthrun_watermark = true
    ∧ emptyConfigAppSettings.esp_enabled_team = true
    ∧ emptyConfigAppSettings.esp_enabled_enemy = true
    ∧ emptyConfigAppSettings.mouse_x_360 = 16364
    ∧ emptyConfigAppSettings.trigger_bot_delay_min = 10
    ∧ emptyConfigAppSettings.trigger_bot_delay_max = 20
    ∧ emptyConfigAppSettings.hide_overlay_from_screen_capture = true
    ∧ emptyConfigAppSettings.overlay_fps_limit = 0
    ∧ emptyConfigAppSettings.render_debug_window = false
    ∧ emptyConfigAppSettings.imgui = none
    ∧ emptyConfigAppSettings.key_settings = ⟨.pause⟩
    ∧ emptyConfigAppSettings.key_trigger_bot = some ⟨.mouseMiddle⟩
    ∧ emptyConfigAppSettings.esp_toogle = none :=
  ⟨rfl, rfl, rfl, rfl, rfl, rfl, rfl, rfl, rfl, rfl, rfl, rfl, rfl, rfl, rfl, rfl,
   rfl, rfl, rfl⟩

theorem load_app_settings_missing_file_defaults_witness :
    load_app_settings (fun _ => .error "unused") none = .ok emptyConfigAppSettings :=
  (load_app_settings_missing_file_defaults (fun _ => .error "unused")).1

theorem generate_player_info_health_pos (world : World) (cache : ModelCache)
    (local_team : Nat) (pc : Except String ControllerFields) (info : PlayerInfo)
    (cache2 : ModelCache)
    (h : generate_player_info world cache local_team pc = (.ok (some info), cache2)) :
    0 < info.player_health := by
  unfold generate_player_info at h
  repeat' split at h
  all_goals try (exfalso; simp_all; done)
  all_goals
    simp only [Prod.mk.injEq, Except.ok.injEq, Option.some.injEq] at h
  all_goals obtain ⟨h1, -⟩ := h
  all_goals subst h1
  all_goals simp_all

theorem esp_fold_health (world : World) (local_team : Nat) :
    ∀ (pcs : List (Except String ControllerFields))
      (acc : List PlayerInfo × ModelCache),
      (∀ i ∈ acc.1, 0 < i.player_health) →
      ∀ i ∈ (pcs.foldl (esp_update_step world local_team) acc).1, 0 < i.player_health := by
  intro pcs
  induction pcs with
  | nil => intro acc hacc; simpa using hacc
  | cons pc rest ih =>
    intro acc hacc
    rw [List.foldl_cons]
    apply ih
    unfold esp_update_step
    split
    next info cache2 heq =>
      intro i hi
      simp only at hi
      rcases List.mem_append.mp hi with hmem | hmem
      · exact hacc i hmem
      · have hii : i = info := by simpa using hmem
        subst hii
        exact generate_player_info_health_pos world acc.2 local_team pc i cache2 heq
    next => exact fun i hi => hacc i hi
    next => exact fun i hi => hacc i hi

/-- C10: after `PlayerESP::update` every entry of the players list has
strictly positive health; a controller whose pawn handle is invalid, whose
pawn cannot be resolved by handle, whose health is non-positive, or whose
scene node is dormant yields `Ok(None)` — no entry and no error — and when
ESP is disabled in the settings the resulting list is empty. -/
theorem playerESP_update_invariants :
    (∀ (ctx : EspUpdateContext) (cache : ModelCache) (players : List PlayerInfo)
        (cache2 : ModelCache),
        playerESP_update ctx cache = (.ok players, cache2) →
        ∀ info ∈ players, 0 < info.player_health)
    ∧ (∀ (ctx : EspUpdateContext) (cache : ModelCache), ctx.settings.esp = false →
        playerESP_update ctx cache = (.ok [], cache))
    ∧ (∀ (world : World) (cache : ModelCache) (local_team : Nat)
        (pc : ControllerFields) (hdl : CHandle),
        pc.m_hPlayerPawn = .ok hdl → hdl.valid = false →
        generate_player_info world cache local_team (.ok pc) = (.ok none, cache))
    ∧ (∀ (world : World) (cache : ModelCache) (local_team : Nat)
        (pc : ControllerFields) (hdl : CHandle),
        pc.m_hPlayerPawn = .ok hdl → hdl.valid = true →
        get_by_handle world.readSlot hdl.handle = .ok none →
        generate_player_info world cache local_team (.ok pc) = (.ok none, cache))
    ∧ (∀ (world : World) (cache : ModelCache) (local_team : Nat)
        (pc : ControllerFields) (hdl : CHandle) (ident : EntityIdentity)
        (pawn : PawnFields) (health : Int),
        pc.m_hPlayerPawn = .ok hdl → hdl.valid = true →
        get_by_handle world.readSlot hdl.handle = .ok (some ident) →
        world.readPawn ident.entity_address = .ok pawn →
        pawn.m_iHealth = .ok health → health ≤ 0 →
        generate_player_info world cache local_team (.ok pc) = (.ok none, cache))
    ∧ (∀ (world : World) (cache : ModelCache) (local_team : Nat)
        (pc : ControllerFields) (hdl : CHandle) (ident : EntityIdentity)
        (pawn : PawnFields) (health : Int) (node : SceneNodeFields),
        pc.m_hPlayerPawn = .ok hdl → hdl.valid = true →
        get_by_handle world.readSlot hdl.handle = .ok (some ident) →
        world.readPawn ident.entity_address = .ok pawn →
        pawn.m_iHealth = .ok health → ¬ health ≤ 0 →
        pawn.sceneNode = .ok node → node.m_bDormant = .ok true →
        generate_player_info world cache local_team (.ok pc) = (.ok none, cache)) := by
  refine ⟨?_, ?_, ?_, ?_, ?_, ?_⟩
  · intro ctx cache players cache2 h
    unfold playerESP_update at h
    split at h
    · simp only [Prod.mk.injEq, Except.ok.injEq] at h
      obtain ⟨rfl, -⟩ := h
      intro info hinfo
      simp at hinfo
    · split at h
      · simp_all
      · simp only [Prod.mk.injEq, Except.ok.injEq] at h
        obtain ⟨rfl, -⟩ := h
        intro info hinfo
        simp at hinfo
      · split at h
        · simp_all
        · split at h
          · simp_all
          · simp only [Prod.mk.injEq, Except.ok.injEq] at h
            obtain ⟨hp, -⟩ := h
            subst hp
            exact esp_fold_health _ _ _ ([], cache) (by simp)
  · intro ctx cache hesp
    simp [playerESP_update, hesp]
  · intro world cache local_team pc hdl hpc hvalid
    obtain ⟨pcPawn, pcTeam, pcName, pcLocal⟩ := pc
    replace hpc : pcPawn = .ok hdl := hpc
    subst hpc
    simp [generate_player_info, hvalid]
  · intro world cache local_team pc hdl hpc hvalid hgbh
    obtain ⟨pcPawn, pcTeam, pcName, pcLocal⟩ := pc
    replace hpc : pcPawn = .ok hdl := hpc
    subst hpc
    simp [generate_player_info, hvalid, hgbh]
  · intro world cache local_team pc hdl ident pawn health hpc hvalid hgbh hpawn hhealth hle
    obtain ⟨pcPawn, pcTeam, pcName, pcLocal⟩ := pc
    replace hpc : pcPawn = .ok hdl := hpc
    subst hpc
    simp [generate_player_info, hvalid, hgbh, hpawn, hhealth, hle]
  · intro world cache local_team pc hdl ident pawn health node hpc hvalid hgbh hpawn
      hhealth hgt hnode hdorm
    obtain ⟨pcPawn, pcTeam, pcName, pcLocal⟩ := pc
    replace hpc : pcPawn = .ok hdl := hpc
    subst hpc
    simp [generate_player_info, hvalid, hgbh, hpawn, hhealth, hgt, hnode, hdorm]

theorem playerESP_update_invariants_witness :
    playerESP_update
      ⟨⟨false, false, false⟩,
       ⟨fun _ => .ok none, fun _ => .error "unreadable", fun _ => .error "unreadable"⟩,
       .ok none, .ok []⟩ [] = (.ok [], []) :=
  playerESP_update_invariants.2.1
    ⟨⟨false, false, false⟩,
     ⟨fun _ => .ok none, fun _ => .error "unreadable", fun _ => .error "unreadable"⟩,
     .ok none, .ok []⟩ [] rfl

end Valthrun
